import Mathlib

/-!
Verification development for the Shopee AI customer-service bot
(`main.py` and `shopee_bot.py`).  The Python source is shallowly embedded:
pure computations become Lean functions, stateful methods become explicit
state-passing functions, and the外部 environment (browser page contents,
the OpenAI backend outcome, random draws, wall-clock time) is passed in as
explicit inputs.  Durations (Python floats) are modelled as rationals.
-/

namespace ShopeeBot

/-! ## Python list slicing

`l[-n:]` keeps the last `n` elements of a list (the whole list when it has
fewer than `n` elements). -/

/-- Python's `l[-n:]` slice: the last `n` elements of `l`. -/
def lastN (n : Nat) (l : List α) : List α :=
  l.drop (l.length - n)

/-! ## RepliedMessagesTracker (`main.py` lines 140-184)

The Python class keeps an in-memory `set` of md5 hex digests and mirrors it
to `replied_messages.json`.  The set is modelled as a `List String` whose
order is irrelevant (membership is the only observation the code makes of
the in-memory set); `hashlib.md5(...).hexdigest()` is an external library
function and is modelled as a parameter `hashFn : String → String` — every
claim below holds for an arbitrary deterministic digest function, which is
all the source relies on. -/

/-- The string interpolated by `_generate_hash`: `f"{conversation_id}:{message}"`
(`main.py` line 172). -/
def hashContent (conversation_id message : String) : String :=
  conversation_id ++ ":" ++ message

/-- `RepliedMessagesTracker._generate_hash` (`main.py` lines 170-173):
the md5 hex digest of `conversation_id ++ ":" ++ message`. -/
def generate_hash (hashFn : String → String) (conversation_id message : String) : String :=
  hashFn (hashContent conversation_id message)

/-- `RepliedMessagesTracker.is_replied` (`main.py` lines 175-178). -/
def is_replied (hashFn : String → String) (replied_hashes : List String)
    (conversation_id message : String) : Bool :=
  generate_hash hashFn conversation_id message ∈ replied_hashes

/-- `RepliedMessagesTracker.mark_replied` (`main.py` lines 180-184):
`set.add` of the digest (a no-op when already present). -/
def mark_replied (hashFn : String → String) (replied_hashes : List String)
    (conversation_id message : String) : List String :=
  if generate_hash hashFn conversation_id message ∈ replied_hashes then replied_hashes
  else generate_hash hashFn conversation_id message :: replied_hashes

/-- `RepliedMessagesTracker._save` (`main.py` lines 160-168): the persisted
list is `list(self.replied_hashes)[-1000:]`.  CPython enumerates a `set` in
an arbitrary, hash-determined order, so the enumeration is an explicit
argument (any permutation of the in-memory set). -/
def savePersistedHashes (enumeration : List α) : List α :=
  lastN 1000 enumeration

/-- `RepliedMessagesTracker._load` (`main.py` lines 148-158): the persisted
list is turned back into a set (`set(data.get('hashes', []))`). -/
def loadRepliedHashes (persisted : List String) : List String :=
  persisted.dedup

/-! ## ConversationHistoryManager (`main.py` lines 191-243) -/

/-- `MAX_CONVERSATION_HISTORY` (`main.py` line 84, default value). -/
def MAX_CONVERSATION_HISTORY : Nat := 10

/-- One entry of a conversation's history list (`main.py` lines 223-227). -/
structure Turn where
  role : String
  content : String
  timestamp : String
  deriving Repr, DecidableEq

/-- The `self.conversations` dict, modelled as a total function defaulting
to `[]` (the code inserts `[]` on first use, `main.py` lines 220-221). -/
def Conversations : Type := String → List Turn

/-- A fresh manager: `self.conversations = {}`. -/
def emptyConversations : Conversations := fun _ => []

/-- `ConversationHistoryManager.add_message` (`main.py` lines 218-233):
append the new turn, then keep only the last `MAX_CONVERSATION_HISTORY * 2`
entries when the list exceeds that bound.  `now` is `datetime.now().isoformat()`. -/
def add_message (conv : Conversations) (conversation_id role content now : String) :
    Conversations :=
  fun c =>
    if c = conversation_id then
      let appended := conv conversation_id ++ [⟨role, content, now⟩]
      if appended.length > MAX_CONVERSATION_HISTORY * 2 then
        lastN (MAX_CONVERSATION_HISTORY * 2) appended
      else appended
    else conv c

/-- `ConversationHistoryManager.get_history` (`main.py` lines 235-243):
the last `MAX_CONVERSATION_HISTORY * 2` turns, projected to OpenAI
`(role, content)` pairs. -/
def get_history (conv : Conversations) (conversation_id : String) :
    List (String × String) :=
  (lastN (MAX_CONVERSATION_HISTORY * 2) (conv conversation_id)).map
    (fun t => (t.role, t.content))

/-- One successful exchange as performed by `process_conversation`
(`main.py` lines 803-804): append the user turn, then the assistant turn. -/
def exchange (conv : Conversations) (conversation_id user_msg assistant_msg now : String) :
    Conversations :=
  add_message (add_message conv conversation_id "user" user_msg now)
    conversation_id "assistant" assistant_msg now

/-- `N` successful exchanges in a row for one conversation, with the given
`(user, assistant)` message pairs. -/
def runExchanges (conv : Conversations) (conversation_id : String)
    (pairs : List (String × String)) (now : String) : Conversations :=
  pairs.foldl (fun c p => exchange c conversation_id p.1 p.2 now) conv

/-! ## StatsTracker (`main.py` lines 250-306) -/

/-- The `self.stats` dict (`main.py` lines 255-261). -/
structure Stats where
  total_messages : Nat
  total_replies : Nat
  start_time : Option String
  last_reply_time : Option String
  errors : Nat
  deriving Repr, DecidableEq

/-- Initial stats (`main.py` lines 255-261). -/
def initialStats : Stats :=
  { total_messages := 0, total_replies := 0, start_time := none
    last_reply_time := none, errors := 0 }

/-- `StatsTracker.record_reply` (`main.py` lines 286-290). -/
def record_reply (s : Stats) (now : String) : Stats :=
  { s with total_replies := s.total_replies + 1, last_reply_time := some now }

/-- `StatsTracker.record_error` (`main.py` lines 292-295). -/
def record_error (s : Stats) : Stats :=
  { s with errors := s.errors + 1 }

/-! ## AI reply generation (`main.py` lines 313-348) -/

/-- The fixed fallback reply returned when the OpenAI call raises
(`main.py` line 348). -/
def FALLBACK_REPLY : String :=
  "您好，感謝您的訊息！客服人員稍後會為您處理，請稍等～"

/-- `generate_ai_response` (`main.py` lines 313-348).  The whole body runs
inside `try`: on success the stripped message content of the API response
is returned, on any exception the fixed fallback string is returned and —
notably — no statistics are touched.  `backendContent` is the raw content
returned by the external OpenAI call, `none` when the call raises. -/
def generate_ai_response (backendContent : Option String) : String :=
  match backendContent with
  | some content => content.trim
  | none => FALLBACK_REPLY

/-! ## ShopeeChatBot.send_message / process_conversation (`main.py` lines 739-814)

The browser environment is abstracted into the outcome it forces on
`send_message`: the input box may be missing, the send button may be
missing, typing/clicking may raise, or everything may succeed. -/

/-- Possible outcomes of one `send_message` attempt (`main.py` lines 739-766). -/
inductive SendOutcome where
  | noInputBox
  | noSendButton
  | sendRaise
  | ok
  deriving Repr, DecidableEq

/-- Observable side effects of one `process_conversation` call, in the
order the code performs them. -/
inductive PEvent where
  | sentMsg (text : String)
  | markedReplied (conversation_id message : String)
  | appendedTurn (conversation_id role content : String)
  deriving Repr, DecidableEq

/-- The mutable state of a `ShopeeChatBot` instance that
`process_conversation` touches: the dedup tracker's set, the history
manager's dict, the stats dict, and `self.current_conversation_id`. -/
structure BotState where
  replied_hashes : List String
  conversations : Conversations
  stats : Stats
  current_conversation_id : String

/-- A fresh bot (`main.py` lines 467-480, with fresh stores on disk). -/
def initialBotState : BotState :=
  { replied_hashes := [], conversations := emptyConversations
    stats := initialStats, current_conversation_id := "" }

/-- Everything the environment supplies to one `process_conversation`
call: the conversation id resolved by `get_conversation_id`, the extracted
buyer message (`None` when unreadable), the OpenAI response content
(`none` when the API call raises), the fate of the send attempt, and the
wall-clock timestamp string used for history entries and stats. -/
structure CycleEnv where
  conversation_id : String
  customer_message : Option String
  backendContent : Option String
  send : SendOutcome
  now : String

/-- `ShopeeChatBot.send_message` (`main.py` lines 739-766).  Returns the
Python `bool` result together with the updated stats.  When the input box
or send button is missing the method returns `False` without touching the
stats; when typing or clicking raises, the `except` branch records an
error; on success `record_reply` runs. -/
def send_message (s : Stats) (outcome : SendOutcome) (now : String) : Bool × Stats :=
  match outcome with
  | .noInputBox => (false, s)
  | .noSendButton => (false, s)
  | .sendRaise => (false, record_error s)
  | .ok => (true, record_reply s now)

/-- `ShopeeChatBot.process_conversation` (`main.py` lines 768-814),
returning the updated bot state together with the list of observable
events (in program order).  Control flow of the source: store the
conversation id; bail out if no message could be read; bail out if the
dedup tracker already holds the message; generate the reply (internal
fallback on backend failure); attempt the send; only on a successful send
mark the message replied and append the user and assistant turns. -/
def process_conversation (hashFn : String → String) (s : BotState) (e : CycleEnv) :
    BotState × List PEvent :=
  let s := { s with current_conversation_id := e.conversation_id }
  match e.customer_message with
  | none => (s, [])
  | some customer_message =>
    if is_replied hashFn s.replied_hashes e.conversation_id customer_message then
      (s, [])
    else
      let _history := get_history s.conversations e.conversation_id
      let ai_reply := generate_ai_response e.backendContent
      let sendResult := send_message s.stats e.send e.now
      let s := { s with stats := sendResult.2 }
      if sendResult.1 then
        let marked := mark_replied hashFn s.replied_hashes e.conversation_id customer_message
        let conv1 := add_message s.conversations e.conversation_id "user" customer_message e.now
        let conv2 := add_message conv1 e.conversation_id "assistant" ai_reply e.now
        let s := { s with replied_hashes := marked, conversations := conv2 }
        (s, [.sentMsg ai_reply,
             .markedReplied e.conversation_id customer_message,
             .appendedTurn e.conversation_id "user" customer_message,
             .appendedTurn e.conversation_id "assistant" ai_reply])
      else
        (s, [])

/-! ## Human-interaction simulator (`main.py` lines 355-407)

Randomness is supplied as explicit draw streams; sleeping, key presses and
pointer actions become an explicit action trace so durations and ordering
can be reasoned about.  Durations are rationals. -/

/-- Typing/send timing configuration (`main.py` lines 76-81, default
values of `TYPING_MIN_DELAY`, `TYPING_MAX_DELAY`, `SEND_WAIT_MIN`,
`SEND_WAIT_MAX`). -/
structure TypingConfig where
  typing_min_delay : ℚ
  typing_max_delay : ℚ
  send_wait_min : ℚ
  send_wait_max : ℚ

/-- The default configuration from the source. -/
def defaultTypingConfig : TypingConfig :=
  { typing_min_delay := 1/10, typing_max_delay := 3/10
    send_wait_min := 1, send_wait_max := 3 }

/-- One random draw stream per call site of `random.uniform` /
`random.random` / `random.choice` inside `simulate_human_typing`
(`main.py` lines 355-391), indexed by character position. -/
structure TypingDraws where
  focusDelay : ℚ
  charDelay : Nat → ℚ
  thinkRoll : Nat → ℚ
  thinkPause : Nat → ℚ
  typoRoll : Nat → ℚ
  typoChar : Nat → Char
  typoPause : Nat → ℚ
  typoBackPause : Nat → ℚ

/-- One concrete, legal draw stream: focus pause 0.5 s (within
`[0.3, 0.6]`), every per-character delay at the default maximum 0.3 s, and
every probability roll at 1 (so no think pause and no typo fires). -/
def fixedDraws : TypingDraws :=
  { focusDelay := 1/2, charDelay := fun _ => 3/10
    thinkRoll := fun _ => 1, thinkPause := fun _ => 1/2
    typoRoll := fun _ => 1, typoChar := fun _ => 'x'
    typoPause := fun _ => 3/10, typoBackPause := fun _ => 3/20 }

/-- Atomic browser interactions performed while typing and sending. -/
inductive Action where
  | keyPress (c : Char)
  | keyBackspace
  | sleepFor (d : ℚ)
  | hoverSend
  | clickSend
  deriving Repr, DecidableEq

/-- Loop body of `simulate_human_typing` for one character at position `i`
of a text of length `L` (`main.py` lines 371-389): type the character,
sleep the uniform per-character delay, with probability 0.05 sleep an
extra think pause of `[0.4, 0.8]`, with probability 0.02 — and only when
not on the final character — type one wrong letter, pause, backspace,
pause again. -/
def charActions (d : TypingDraws) (L i : Nat) (c : Char) : List Action :=
  [.keyPress c, .sleepFor (d.charDelay i)]
  ++ (if d.thinkRoll i < 5/100 then [.sleepFor (d.thinkPause i)] else [])
  ++ (if d.typoRoll i < 2/100 ∧ i < L - 1 then
        [.keyPress (d.typoChar i), .sleepFor (d.typoPause i),
         .keyBackspace, .sleepFor (d.typoBackPause i)]
      else [])

/-- The `for i, char in enumerate(text)` loop of `simulate_human_typing`,
carrying the running index. -/
def typingLoop (d : TypingDraws) (L : Nat) : Nat → List Char → List Action
  | _, [] => []
  | i, c :: rest => charActions d L i c ++ typingLoop d L (i + 1) rest

/-- `simulate_human_typing` (`main.py` lines 355-391): click the input box
to focus it, sleep a uniform `[0.3, 0.6]` focus pause, then run the
per-character loop. -/
def simulate_human_typing (d : TypingDraws) (text : List Char) : List Action :=
  .sleepFor d.focusDelay :: typingLoop d text.length 0 text

/-- `human_like_send` (`main.py` lines 394-407): sleep the uniform
pre-send wait, hover over the send button, sleep a short `[0.1, 0.3]`
hover pause, then click. -/
def human_like_send (sendWait hoverPause : ℚ) : List Action :=
  [.sleepFor sendWait, .hoverSend, .sleepFor hoverPause, .clickSend]

/-- The successful path of `send_message` (`main.py` lines 752-756):
`simulate_human_typing` runs to completion, then `human_like_send`. -/
def send_message_actions (d : TypingDraws) (text : List Char)
    (sendWait hoverPause : ℚ) : List Action :=
  simulate_human_typing d text ++ human_like_send sendWait hoverPause

/-- Total time slept by a trace of actions. -/
def totalSleep : List Action → ℚ
  | [] => 0
  | .sleepFor d :: rest => d + totalSleep rest
  | _ :: rest => totalSleep rest

/-- The characters typed by a trace, in order (presses and backspaces). -/
def keysOf : List Action → List Action
  | [] => []
  | .keyPress c :: rest => .keyPress c :: keysOf rest
  | .keyBackspace :: rest => .keyBackspace :: keysOf rest
  | _ :: rest => keysOf rest

/-! ## Poll loop timing (`main.py` lines 853-901, `shopee_bot.py` lines 364-413) -/

/-- `REFRESH_MIN_SECONDS` (`main.py` line 72, default value). -/
def REFRESH_MIN_SECONDS : Nat := 30

/-- `REFRESH_MAX_SECONDS` (`main.py` line 73, default value). -/
def REFRESH_MAX_SECONDS : Nat := 60

/-- Idle-cycle wait of `main_loop` (`main.py` lines 879-890): after a cycle
finds no unread conversation the loop sleeps `wait_time = random.randint(
REFRESH_MIN_SECONDS, REFRESH_MAX_SECONDS)` seconds, reloads the page, and
then sleeps a further fixed 2 seconds before the next cycle starts.  The
value is the waiting between consecutive cycle starts, exclusive of the
reload itself. -/
def main_loop_idle_cycle_gap (wait_time : Nat) : Nat :=
  wait_time + 2

/-- The poll-interval sleep of `main_loop` (`main.py` line 882) as a list
of uninterrupted sleep segments: `await asyncio.sleep(wait_time)` is one
single segment — no stop-flag check happens inside it. -/
def main_loop_poll_sleep_segments (wait_time : Nat) : List Nat :=
  [wait_time]

/-- The poll-interval wait of `ShopeeBot.run` (`shopee_bot.py` lines
404-408): `for _ in range(int(wait_time)):` check the stop event, then
`await asyncio.sleep(1)` — i.e. `int(wait_time)` one-second segments with
a stop check before each. -/
def run_poll_wait_segments (wait_time : Nat) : List Nat :=
  List.replicate wait_time 1

/-- The error-backoff sleep of `ShopeeBot.run` (`shopee_bot.py` line 413):
a single unsegmented `await asyncio.sleep(5)`. -/
def run_error_backoff_segments : List Nat :=
  [5]

/-- The longest stretch of sleeping between two consecutive opportunities
to observe the stop signal, for a sleep split into the given segments. -/
def maxCheckGap (segments : List Nat) : Nat :=
  segments.foldr max 0

/-! ## Conversation-id fallback (`main.py` lines 616-640)

`get_conversation_id` tries the page URL (a ≥10-digit number), then the
active chat element's `data-id`/`id` attribute, and finally falls back to
`f"conv_{datetime.now().strftime('%Y%m%d%H%M%S')}"`.  The strftime pattern
reads only whole-second fields of the clock, so an observation instant is
modelled as a whole-second count plus a sub-second remainder, and the
formatter as a decimal rendering of the whole-second count — like the real
`'%Y%m%d%H%M%S'` it is a function of the whole seconds alone and is
injective on them. -/

/-- A wall-clock instant: whole seconds plus sub-second fraction. -/
structure Instant where
  sec : Nat
  subsec : ℚ
  deriving DecidableEq

/-- The decimal digit character for `d` (meaningful for `d < 10`). -/
def digitChar (d : Nat) : Char :=
  Char.ofNat (48 + d)

/-- Decimal rendering of a natural number, most significant digit first. -/
def natToDigits (n : Nat) : List Char :=
  if _h : n < 10 then [digitChar n]
  else natToDigits (n / 10) ++ [digitChar (n % 10)]
decreasing_by exact Nat.div_lt_self (by omega) (by omega)

/-- Reading a decimal digit string back (left fold, base 10). -/
def parseDigits (l : List Char) : Nat :=
  l.foldl (fun a c => a * 10 + (c.toNat - 48)) 0

/-- Model of `datetime.now().strftime('%Y%m%d%H%M%S')` (`main.py` line
636): a formatter that depends only on the whole-second part of the clock
and renders distinct second counts as distinct strings. -/
def fmtTimestamp (t : Instant) : String :=
  String.mk (natToDigits t.sec)

/-- `ShopeeChatBot.get_conversation_id` (`main.py` lines 616-640): URL id
if a ≥10-digit number is found there, else the active element's id
attribute, else the timestamp fallback `"conv_" + strftime`. -/
def get_conversation_id (urlId elemId : Option String) (t : Instant) : String :=
  match urlId with
  | some i => i
  | none =>
    match elemId with
    | some i => i
    | none => "conv_" ++ fmtTimestamp t

/-! ## Helper lemmas -/

theorem length_lastN (n : Nat) (l : List α) :
    (lastN n l).length = min n l.length := by
  simp only [lastN, List.length_drop]
  omega

theorem lastN_subset (n : Nat) (l : List α) : ∀ x ∈ lastN n l, x ∈ l := by
  intro x hx
  exact List.drop_subset _ l hx

theorem lastN_of_length_le (n : Nat) (l : List α) (h : l.length ≤ n) :
    lastN n l = l := by
  unfold lastN
  rw [Nat.sub_eq_zero_of_le h, List.drop_zero]

theorem string_eq_of_data {s t : String} (h : s.data = t.data) : s = t := by
  cases s; cases t; exact congrArg String.mk h

theorem string_append_right_inj {a b : String} (c : String) (h : a ++ c = b ++ c) :
    a = b := by
  have hd : a.data ++ c.data = b.data ++ c.data := by
    have := congrArg String.data h
    simpa [String.data_append] using this
  exact string_eq_of_data (List.append_cancel_right hd)

theorem string_append_left_inj {a b : String} (c : String) (h : c ++ a = c ++ b) :
    a = b := by
  have hd : c.data ++ a.data = c.data ++ b.data := by
    have := congrArg String.data h
    simpa [String.data_append] using this
  exact string_eq_of_data (List.append_cancel_left hd)

theorem digitChar_toNat {d : Nat} (h : d < 10) : (digitChar d).toNat = 48 + d := by
  unfold digitChar
  interval_cases d <;> rfl

theorem parseDigits_append_singleton (l : List Char) (c : Char) :
    parseDigits (l ++ [c]) = parseDigits l * 10 + (c.toNat - 48) := by
  simp [parseDigits, List.foldl_append]

theorem parseDigits_natToDigits (n : Nat) : parseDigits (natToDigits n) = n := by
  induction n using Nat.strong_induction_on with
  | _ n ih =>
    rw [natToDigits]
    split
    · rename_i h
      simp [parseDigits, List.foldl]
      rw [digitChar_toNat h]
      omega
    · rename_i h
      rw [parseDigits_append_singleton,
        ih (n / 10) (Nat.div_lt_self (by omega) (by omega)),
        digitChar_toNat (Nat.mod_lt n (by omega))]
      omega

theorem natToDigits_inj {m n : Nat} (h : natToDigits m = natToDigits n) : m = n := by
  have := congrArg parseDigits h
  simpa [parseDigits_natToDigits] using this

theorem fmtTimestamp_inj {t₁ t₂ : Instant} (h : fmtTimestamp t₁ = fmtTimestamp t₂) :
    t₁.sec = t₂.sec := by
  exact natToDigits_inj (congrArg String.data h)

theorem hashContent_left_inj {c₁ c₂ : String} (m : String)
    (h : hashContent c₁ m = hashContent c₂ m) : c₁ = c₂ := by
  unfold hashContent at h
  exact string_append_right_inj ":" (string_append_right_inj m h)

theorem is_replied_mark_self (hashFn : String → String) (l : List String)
    (c m : String) : is_replied hashFn (mark_replied hashFn l c m) c m = true := by
  simp only [is_replied, mark_replied]
  split <;> simp_all

theorem add_message_length (conv : Conversations) (cid r c now : String) :
    ((add_message conv cid r c now) cid).length =
      min ((conv cid).length + 1) (MAX_CONVERSATION_HISTORY * 2) := by
  simp only [add_message, if_pos]
  split
  · rename_i h
    rw [length_lastN]
    simp only [List.length_append, List.length_singleton] at h ⊢
    omega
  · rename_i h
    simp only [List.length_append, List.length_singleton] at h ⊢
    omega

theorem add_message_other (conv : Conversations) (cid r c now x : String)
    (h : x ≠ cid) : (add_message conv cid r c now) x = conv x := by
  simp [add_message, h]

theorem add_message_full (conv : Conversations) (cid r c now : String)
    (h : (conv cid).length = MAX_CONVERSATION_HISTORY * 2) :
    (add_message conv cid r c now) cid = (conv cid).tail ++ [⟨r, c, now⟩] := by
  simp only [add_message, if_pos]
  rw [if_pos (by simp [h, MAX_CONVERSATION_HISTORY])]
  unfold lastN
  simp only [List.length_append, List.length_singleton, h]
  rw [show MAX_CONVERSATION_HISTORY * 2 + 1 - MAX_CONVERSATION_HISTORY * 2 = 1 from by
    simp [MAX_CONVERSATION_HISTORY]]
  rw [List.drop_append_of_le_length (by rw [h]; norm_num [MAX_CONVERSATION_HISTORY]),
    List.drop_one]

theorem exchange_length (conv : Conversations) (cid u a now : String) :
    ((exchange conv cid u a now) cid).length =
      min ((conv cid).length + 2) (MAX_CONVERSATION_HISTORY * 2) := by
  unfold exchange
  rw [add_message_length, add_message_length]
  simp only [MAX_CONVERSATION_HISTORY]
  omega

theorem runExchanges_length (cid now : String) (pairs : List (String × String)) :
    ∀ conv : Conversations, (conv cid).length ≤ MAX_CONVERSATION_HISTORY * 2 →
      ((runExchanges conv cid pairs now) cid).length =
        min ((conv cid).length + 2 * pairs.length) (MAX_CONVERSATION_HISTORY * 2) := by
  induction pairs with
  | nil =>
    intro conv h
    simp only [runExchanges, List.foldl_nil, List.length_nil, MAX_CONVERSATION_HISTORY] at h ⊢
    omega
  | cons p rest ih =>
    intro conv h
    have hstep : runExchanges conv cid (p :: rest) now =
        runExchanges (exchange conv cid p.1 p.2 now) cid rest now := by
      simp [runExchanges]
    have hle : ((exchange conv cid p.1 p.2 now) cid).length ≤ MAX_CONVERSATION_HISTORY * 2 := by
      rw [exchange_length]; omega
    rw [hstep, ih _ hle, exchange_length]
    simp only [List.length_cons, MAX_CONVERSATION_HISTORY] at h ⊢
    omega

theorem totalSleep_append (l₁ l₂ : List Action) :
    totalSleep (l₁ ++ l₂) = totalSleep l₁ + totalSleep l₂ := by
  induction l₁ with
  | nil => simp [totalSleep]
  | cons a rest ih => cases a <;> simp [totalSleep, ih] <;> ring

theorem keysOf_append (l₁ l₂ : List Action) :
    keysOf (l₁ ++ l₂) = keysOf l₁ ++ keysOf l₂ := by
  induction l₁ with
  | nil => simp [keysOf]
  | cons a rest ih => cases a <;> simp [keysOf, ih]

theorem charActions_clean (d : TypingDraws) (L i : Nat) (c : Char)
    (hthink : ¬ d.thinkRoll i < 5/100) (htypo : ¬ d.typoRoll i < 2/100) :
    charActions d L i c = [.keyPress c, .sleepFor (d.charDelay i)] := by
  simp [charActions, hthink, htypo]

theorem typingLoop_clean_keys (d : TypingDraws) (L : Nat)
    (hthink : ∀ i, ¬ d.thinkRoll i < 5/100) (htypo : ∀ i, ¬ d.typoRoll i < 2/100) :
    ∀ (cs : List Char) (i : Nat),
      keysOf (typingLoop d L i cs) = cs.map Action.keyPress := by
  intro cs
  induction cs with
  | nil => intro i; simp [typingLoop, keysOf]
  | cons c rest ih =>
    intro i
    rw [typingLoop, charActions_clean d L i c (hthink i) (htypo i), keysOf_append, ih]
    simp [keysOf]

theorem typingLoop_clean_sleep_bounds (cfg : TypingConfig) (d : TypingDraws) (L : Nat)
    (hthink : ∀ i, ¬ d.thinkRoll i < 5/100) (htypo : ∀ i, ¬ d.typoRoll i < 2/100)
    (hlo : ∀ i, cfg.typing_min_delay ≤ d.charDelay i)
    (hhi : ∀ i, d.charDelay i ≤ cfg.typing_max_delay) :
    ∀ (cs : List Char) (i : Nat),
      (cs.length : ℚ) * cfg.typing_min_delay ≤ totalSleep (typingLoop d L i cs) ∧
      totalSleep (typingLoop d L i cs) ≤ (cs.length : ℚ) * cfg.typing_max_delay := by
  intro cs
  induction cs with
  | nil => intro i; simp [typingLoop, totalSleep]
  | cons c rest ih =>
    intro i
    rw [typingLoop, charActions_clean d L i c (hthink i) (htypo i), totalSleep_append]
    have hrest := ih (i + 1)
    have hc₁ := hlo i
    have hc₂ := hhi i
    simp only [totalSleep, List.length_cons]
    push_cast
    constructor <;> nlinarith [hrest.1, hrest.2]

theorem clickSend_not_mem_charActions (d : TypingDraws) (L i : Nat) (c : Char) :
    Action.clickSend ∉ charActions d L i c := by
  unfold charActions
  split <;> split <;> simp

theorem clickSend_not_mem_typingLoop (d : TypingDraws) (L : Nat) :
    ∀ (cs : List Char) (i : Nat), Action.clickSend ∉ typingLoop d L i cs := by
  intro cs
  induction cs with
  | nil => intro i; simp [typingLoop]
  | cons c rest ih =>
    intro i
    rw [typingLoop]
    simp only [List.mem_append, not_or]
    exact ⟨clickSend_not_mem_charActions d L i c, ih (i + 1)⟩

theorem maxCheckGap_replicate_one (w : Nat) :
    maxCheckGap (List.replicate w 1) ≤ 1 := by
  induction w with
  | zero => simp [maxCheckGap]
  | succ n ih =>
    simp only [maxCheckGap, List.replicate, List.foldr_cons] at ih ⊢
    omega

/-! ## Claims -/

/-- Claim C1: for all conversation ids `c` and message texts `m`, running
`process_conversation` twice with identical `(c, m)` results in exactly
one send and exactly one dedup-mark: after the first successful run
`is_replied c m` is true, and the second run performs no send, no history
append, and no further dedup-mark — regardless of what the backend or the
browser would have done on the second run. -/
theorem process_conversation_idempotent
    (hashFn : String → String) (s₀ : BotState) (c m : String)
    (b b₂ : Option String) (now now₂ : String) (send₂ : SendOutcome)
    (hfresh : is_replied hashFn s₀.replied_hashes c m = false) :
    (process_conversation hashFn s₀ ⟨c, some m, b, .ok, now⟩).2 =
      [.sentMsg (generate_ai_response b), .markedReplied c m,
       .appendedTurn c "user" m,
       .appendedTurn c "assistant" (generate_ai_response b)] ∧
    (process_conversation hashFn s₀ ⟨c, some m, b, .ok, now⟩).1.replied_hashes =
      generate_hash hashFn c m :: s₀.replied_hashes ∧
    is_replied hashFn
      (process_conversation hashFn s₀ ⟨c, some m, b, .ok, now⟩).1.replied_hashes c m = true ∧
    (process_conversation hashFn s₀ ⟨c, some m, b, .ok, now⟩).1.stats.total_replies =
      s₀.stats.total_replies + 1 ∧
    (process_conversation hashFn
        (process_conversation hashFn s₀ ⟨c, some m, b, .ok, now⟩).1
        ⟨c, some m, b₂, send₂, now₂⟩).2 = [] ∧
    (process_conversation hashFn
        (process_conversation hashFn s₀ ⟨c, some m, b, .ok, now⟩).1
        ⟨c, some m, b₂, send₂, now₂⟩).1.replied_hashes =
      (process_conversation hashFn s₀ ⟨c, some m, b, .ok, now⟩).1.replied_hashes ∧
    (process_conversation hashFn
        (process_conversation hashFn s₀ ⟨c, some m, b, .ok, now⟩).1
        ⟨c, some m, b₂, send₂, now₂⟩).1.conversations =
      (process_conversation hashFn s₀ ⟨c, some m, b, .ok, now⟩).1.conversations ∧
    (process_conversation hashFn
        (process_conversation hashFn s₀ ⟨c, some m, b, .ok, now⟩).1
        ⟨c, some m, b₂, send₂, now₂⟩).1.stats =
      (process_conversation hashFn s₀ ⟨c, some m, b, .ok, now⟩).1.stats := by
  have hstate : (process_conversation hashFn s₀ ⟨c, some m, b, .ok, now⟩).1 =
      { replied_hashes := mark_replied hashFn s₀.replied_hashes c m,
        conversations := add_message (add_message s₀.conversations c "user" m now)
          c "assistant" (generate_ai_response b) now,
        stats := record_reply s₀.stats now,
        current_conversation_id := c } := by
    simp [process_conversation, send_message, hfresh]
  have hmark : mark_replied hashFn s₀.replied_hashes c m =
      generate_hash hashFn c m :: s₀.replied_hashes := by
    unfold mark_replied
    rw [if_neg]
    intro hmem
    simp [is_replied, hmem] at hfresh
  refine ⟨?_, ?_, ?_, ?_, ?_, ?_, ?_, ?_⟩
  · simp [process_conversation, send_message, hfresh]
  · rw [hstate]; simpa using hmark
  · rw [hstate]; exact is_replied_mark_self hashFn s₀.replied_hashes c m
  · rw [hstate]; simp [record_reply]
  · rw [hstate]; simp [process_conversation, is_replied_mark_self]
  · rw [hstate]; simp [process_conversation, is_replied_mark_self]
  · rw [hstate]; simp [process_conversation, is_replied_mark_self]
  · rw [hstate]; simp [process_conversation, is_replied_mark_self]

/-- Witness for claim C1 at a concrete input. -/
theorem process_conversation_idempotent_witness :
    is_replied (fun s => s) initialBotState.replied_hashes "1001" "運費多少" = false ∧
    ((process_conversation (fun s => s) initialBotState
        ⟨"1001", some "運費多少", some "回覆", .ok, "t1"⟩).2 =
      [.sentMsg (generate_ai_response (some "回覆")), .markedReplied "1001" "運費多少",
       .appendedTurn "1001" "user" "運費多少",
       .appendedTurn "1001" "assistant" (generate_ai_response (some "回覆"))] ∧
    (process_conversation (fun s => s) initialBotState
        ⟨"1001", some "運費多少", some "回覆", .ok, "t1"⟩).1.replied_hashes =
      generate_hash (fun s => s) "1001" "運費多少" :: initialBotState.replied_hashes ∧
    is_replied (fun s => s)
      (process_conversation (fun s => s) initialBotState
        ⟨"1001", some "運費多少", some "回覆", .ok, "t1"⟩).1.replied_hashes "1001" "運費多少" = true ∧
    (process_conversation (fun s => s) initialBotState
        ⟨"1001", some "運費多少", some "回覆", .ok, "t1"⟩).1.stats.total_replies =
      initialBotState.stats.total_replies + 1 ∧
    (process_conversation (fun s => s)
        (process_conversation (fun s => s) initialBotState
          ⟨"1001", some "運費多少", some "回覆", .ok, "t1"⟩).1
        ⟨"1001", some "運費多少", none, .sendRaise, "t2"⟩).2 = [] ∧
    (process_conversation (fun s => s)
        (process_conversation (fun s => s) initialBotState
          ⟨"1001", some "運費多少", some "回覆", .ok, "t1"⟩).1
        ⟨"1001", some "運費多少", none, .sendRaise, "t2"⟩).1.replied_hashes =
      (process_conversation (fun s => s) initialBotState
        ⟨"1001", some "運費多少", some "回覆", .ok, "t1"⟩).1.replied_hashes ∧
    (process_conversation (fun s => s)
        (process_conversation (fun s => s) initialBotState
          ⟨"1001", some "運費多少", some "回覆", .ok, "t1"⟩).1
        ⟨"1001", some "運費多少", none, .sendRaise, "t2"⟩).1.conversations =
      (process_conversation (fun s => s) initialBotState
        ⟨"1001", some "運費多少", some "回覆", .ok, "t1"⟩).1.conversations ∧
    (process_conversation (fun s => s)
        (process_conversation (fun s => s) initialBotState
          ⟨"1001", some "運費多少", some "回覆", .ok, "t1"⟩).1
        ⟨"1001", some "運費多少", none, .sendRaise, "t2"⟩).1.stats =
      (process_conversation (fun s => s) initialBotState
        ⟨"1001", some "運費多少", some "回覆", .ok, "t1"⟩).1.stats) :=
  ⟨by decide, process_conversation_idempotent (fun s => s) initialBotState
    "1001" "運費多少" (some "回覆") none "t1" "t2" .sendRaise (by decide)⟩

/-- Claim C2: for every conversation, after `N` successful exchanges (one
user turn plus one assistant turn each) the stored history has length
`min (2N, 2 * MAX_CONVERSATION_HISTORY)`; the invariant
`len ≤ 2 * MAX_CONVERSATION_HISTORY` is preserved by every append, and
when the window is full the oldest turn is the one dropped. -/
theorem history_bounded_context (conv : Conversations) (cid now : String)
    (pairs : List (String × String)) (h₀ : conv cid = []) :
    ((runExchanges conv cid pairs now) cid).length =
      min (2 * pairs.length) (MAX_CONVERSATION_HISTORY * 2) ∧
    (∀ (cv : Conversations) (cid' r c n : String),
      (cv cid').length ≤ MAX_CONVERSATION_HISTORY * 2 →
      ((add_message cv cid' r c n) cid').length ≤ MAX_CONVERSATION_HISTORY * 2) ∧
    (∀ (cv : Conversations) (cid' r c n : String),
      (cv cid').length = MAX_CONVERSATION_HISTORY * 2 →
      (add_message cv cid' r c n) cid' = (cv cid').tail ++ [⟨r, c, n⟩]) := by
  refine ⟨?_, ?_, ?_⟩
  · rw [runExchanges_length cid now pairs conv (by rw [h₀]; simp)]
    rw [h₀]
    simp [Nat.mul_comm]
  · intro cv cid' r c n h
    rw [add_message_length]
    omega
  · intro cv cid' r c n h
    exact add_message_full cv cid' r c n h

/-- Witness for claim C2 at a concrete input: eleven exchanges overflow
the ten-pair window, leaving exactly twenty stored turns. -/
theorem history_bounded_context_witness :
    emptyConversations "c" = [] ∧
    ((runExchanges emptyConversations "c"
        (List.replicate 11 ("q", "a")) "t") "c").length =
      min (2 * (List.replicate 11 ("q", "a")).length) (MAX_CONVERSATION_HISTORY * 2) ∧
    (∀ (cv : Conversations) (cid' r c n : String),
      (cv cid').length ≤ MAX_CONVERSATION_HISTORY * 2 →
      ((add_message cv cid' r c n) cid').length ≤ MAX_CONVERSATION_HISTORY * 2) ∧
    (∀ (cv : Conversations) (cid' r c n : String),
      (cv cid').length = MAX_CONVERSATION_HISTORY * 2 →
      (add_message cv cid' r c n) cid' = (cv cid').tail ++ [⟨r, c, n⟩]) :=
  ⟨rfl, history_bounded_context emptyConversations "c" "t"
    (List.replicate 11 ("q", "a")) rfl⟩

/-- Claim C3 counterexample: with a failing backend and a successful send,
the sent text is the fixed fallback string but `errors` does **not**
increment — `generate_ai_response` swallows the exception without touching
the stats, refuting the claimed `errors` increment of exactly 1. -/
theorem backend_failure_no_error_increment :
    (process_conversation (fun s => s) initialBotState
        ⟨"c1", some "m1", none, .ok, "t1"⟩).2 =
      [.sentMsg FALLBACK_REPLY, .markedReplied "c1" "m1",
       .appendedTurn "c1" "user" "m1", .appendedTurn "c1" "assistant" FALLBACK_REPLY] ∧
    (process_conversation (fun s => s) initialBotState
        ⟨"c1", some "m1", none, .ok, "t1"⟩).1.stats.errors = initialBotState.stats.errors ∧
    ¬ (process_conversation (fun s => s) initialBotState
        ⟨"c1", some "m1", none, .ok, "t1"⟩).1.stats.errors =
      initialBotState.stats.errors + 1 := by
  refine ⟨?_, rfl, by decide⟩
  decide

/-- Claim C3 as amended: when the backend fails and the send succeeds, the
sent text equals the fixed fallback string and `CycleStats.errors` is
unchanged (the error counter increments only when the send itself
fails). -/
theorem backend_failure_fallback_sent
    (hashFn : String → String) (s₀ : BotState) (c m now : String)
    (hfresh : is_replied hashFn s₀.replied_hashes c m = false) :
    (process_conversation hashFn s₀ ⟨c, some m, none, .ok, now⟩).2 =
      [.sentMsg FALLBACK_REPLY, .markedReplied c m,
       .appendedTurn c "user" m, .appendedTurn c "assistant" FALLBACK_REPLY] ∧
    (process_conversation hashFn s₀ ⟨c, some m, none, .ok, now⟩).1.stats.errors =
      s₀.stats.errors := by
  constructor
  · simp [process_conversation, send_message, hfresh, generate_ai_response]
  · simp [process_conversation, send_message, hfresh, record_reply]

/-- Witness for the amended claim C3 at a concrete input. -/
theorem backend_failure_fallback_sent_witness :
    is_replied (fun s => s) initialBotState.replied_hashes "c9" "hello" = false ∧
    ((process_conversation (fun s => s) initialBotState
        ⟨"c9", some "hello", none, .ok, "t"⟩).2 =
      [.sentMsg FALLBACK_REPLY, .markedReplied "c9" "hello",
       .appendedTurn "c9" "user" "hello", .appendedTurn "c9" "assistant" FALLBACK_REPLY] ∧
    (process_conversation (fun s => s) initialBotState
        ⟨"c9", some "hello", none, .ok, "t"⟩).1.stats.errors =
      initialBotState.stats.errors) :=
  ⟨by decide, backend_failure_fallback_sent (fun s => s) initialBotState
    "c9" "hello" "t" (by decide)⟩

/-- Claim C4 counterexample: 1001 distinct keys are marked, with key
`1000` marked last; `1000 :: List.range 1000` is a legitimate enumeration
of the resulting set (a permutation of the insertion order
`List.range 1000 ++ [1000]`), yet `_save` persists `List.range 1000` —
evicting precisely the most recently marked key, refuting oldest-first
eviction. -/
theorem save_evicts_arbitrary_key :
    List.Perm ((1000 : Nat) :: List.range 1000) (List.range 1000 ++ [1000]) ∧
    (List.range 1000 ++ [(1000 : Nat)]).length = 1001 ∧
    savePersistedHashes ((1000 : Nat) :: List.range 1000) = List.range 1000 ∧
    (1000 : Nat) ∉ savePersistedHashes ((1000 : Nat) :: List.range 1000) := by
  have hsave : savePersistedHashes ((1000 : Nat) :: List.range 1000) = List.range 1000 := by
    unfold savePersistedHashes lastN
    simp
  refine ⟨(List.perm_append_singleton 1000 (List.range 1000)).symm, by simp, hsave, ?_⟩
  rw [hsave]
  simp

/-- Claim C4 as amended: the persisted dedup list always holds at most
1000 keys, all drawn from the in-memory set — but which keys survive is
decided by the set's arbitrary enumeration order, not by marking order. -/
theorem save_capped_at_1000 (enumeration : List α) :
    (savePersistedHashes enumeration).length ≤ 1000 ∧
    ∀ x ∈ savePersistedHashes enumeration, x ∈ enumeration := by
  constructor
  · rw [savePersistedHashes, length_lastN]; omega
  · exact lastN_subset 1000 enumeration

/-- Claim C5: when the send of the typed reply raises, the message is not
dedup-marked and no history turns are appended, the error counter
increments by exactly 1, and the same `(conversation, message)` pair
remains eligible: a later cycle whose send succeeds does reply to it. -/
theorem send_failure_retry
    (hashFn : String → String) (s₀ : BotState) (c m : String)
    (b b₂ : Option String) (now now₂ : String)
    (hfresh : is_replied hashFn s₀.replied_hashes c m = false) :
    (process_conversation hashFn s₀ ⟨c, some m, b, .sendRaise, now⟩).2 = [] ∧
    (process_conversation hashFn s₀ ⟨c, some m, b, .sendRaise, now⟩).1.replied_hashes =
      s₀.replied_hashes ∧
    (process_conversation hashFn s₀ ⟨c, some m, b, .sendRaise, now⟩).1.conversations =
      s₀.conversations ∧
    (process_conversation hashFn s₀ ⟨c, some m, b, .sendRaise, now⟩).1.stats.errors =
      s₀.stats.errors + 1 ∧
    is_replied hashFn
      (process_conversation hashFn s₀ ⟨c, some m, b, .sendRaise, now⟩).1.replied_hashes
      c m = false ∧
    (process_conversation hashFn
        (process_conversation hashFn s₀ ⟨c, some m, b, .sendRaise, now⟩).1
        ⟨c, some m, b₂, .ok, now₂⟩).2 =
      [.sentMsg (generate_ai_response b₂), .markedReplied c m,
       .appendedTurn c "user" m,
       .appendedTurn c "assistant" (generate_ai_response b₂)] := by
  have hstate : (process_conversation hashFn s₀ ⟨c, some m, b, .sendRaise, now⟩).1 =
      { replied_hashes := s₀.replied_hashes,
        conversations := s₀.conversations,
        stats := record_error s₀.stats,
        current_conversation_id := c } := by
    simp [process_conversation, send_message, hfresh]
  refine ⟨?_, ?_, ?_, ?_, ?_, ?_⟩
  · simp [process_conversation, send_message, hfresh]
  · rw [hstate]
  · rw [hstate]
  · rw [hstate]; simp [record_error]
  · rw [hstate]; exact hfresh
  · rw [hstate]; simp [process_conversation, send_message, hfresh]

/-- Witness for claim C5 at a concrete input. -/
theorem send_failure_retry_witness :
    is_replied (fun s => s) initialBotState.replied_hashes "c2" "msg" = false ∧
    ((process_conversation (fun s => s) initialBotState
        ⟨"c2", some "msg", some "r1", .sendRaise, "t1"⟩).2 = [] ∧
    (process_conversation (fun s => s) initialBotState
        ⟨"c2", some "msg", some "r1", .sendRaise, "t1"⟩).1.replied_hashes =
      initialBotState.replied_hashes ∧
    (process_conversation (fun s => s) initialBotState
        ⟨"c2", some "msg", some "r1", .sendRaise, "t1"⟩).1.conversations =
      initialBotState.conversations ∧
    (process_conversation (fun s => s) initialBotState
        ⟨"c2", some "msg", some "r1", .sendRaise, "t1"⟩).1.stats.errors =
      initialBotState.stats.errors + 1 ∧
    is_replied (fun s => s)
      (process_conversation (fun s => s) initialBotState
        ⟨"c2", some "msg", some "r1", .sendRaise, "t1"⟩).1.replied_hashes
      "c2" "msg" = false ∧
    (process_conversation (fun s => s)
        (process_conversation (fun s => s) initialBotState
          ⟨"c2", some "msg", some "r1", .sendRaise, "t1"⟩).1
        ⟨"c2", some "msg", some "r2", .ok, "t2"⟩).2 =
      [.sentMsg (generate_ai_response (some "r2")), .markedReplied "c2" "msg",
       .appendedTurn "c2" "user" "msg",
       .appendedTurn "c2" "assistant" (generate_ai_response (some "r2"))]) :=
  ⟨by decide, send_failure_retry (fun s => s) initialBotState "c2" "msg"
    (some "r1") (some "r2") "t1" "t2" (by decide)⟩

/-- Claim C6 counterexample: with the default timing configuration and a
legal draw stream (focus pause 0.5 s, both per-character delays 0.3 s, no
think pause, no typo) typing the two-character message `"hi"` sleeps for
1.1 s in total — more than `L * char_delay.max = 0.6` s — because
`simulate_human_typing` sleeps a uniform `[0.3, 0.6]` focus pause before
the typing loop.  The claimed bound `L*min ≤ duration ≤ L*max` is
refuted. -/
theorem typing_duration_exceeds_claimed_bound :
    simulate_human_typing fixedDraws ['h', 'i'] =
      [.sleepFor (1/2), .keyPress 'h', .sleepFor (3/10),
       .keyPress 'i', .sleepFor (3/10)] ∧
    totalSleep (simulate_human_typing fixedDraws ['h', 'i']) = 11/10 ∧
    (3/10 : ℚ) ≤ fixedDraws.focusDelay ∧ fixedDraws.focusDelay ≤ 6/10 ∧
    defaultTypingConfig.typing_min_delay ≤ fixedDraws.charDelay 0 ∧
    fixedDraws.charDelay 0 ≤ defaultTypingConfig.typing_max_delay ∧
    defaultTypingConfig.typing_min_delay ≤ fixedDraws.charDelay 1 ∧
    fixedDraws.charDelay 1 ≤ defaultTypingConfig.typing_max_delay ∧
    ¬ totalSleep (simulate_human_typing fixedDraws ['h', 'i']) ≤
        (['h', 'i'].length : ℚ) * defaultTypingConfig.typing_max_delay := by
  have htrace : simulate_human_typing fixedDraws ['h', 'i'] =
      [.sleepFor (1/2), .keyPress 'h', .sleepFor (3/10),
       .keyPress 'i', .sleepFor (3/10)] := by
    norm_num [simulate_human_typing, typingLoop, charActions, fixedDraws]
  refine ⟨htrace, ?_, by norm_num [fixedDraws], by norm_num [fixedDraws],
    by norm_num [fixedDraws, defaultTypingConfig],
    by norm_num [fixedDraws, defaultTypingConfig],
    by norm_num [fixedDraws, defaultTypingConfig],
    by norm_num [fixedDraws, defaultTypingConfig], ?_⟩
  · rw [htrace]; norm_num [totalSleep]
  · rw [htrace]; norm_num [totalSleep, defaultTypingConfig]

/-- Claim C6 as amended: under legal draws with no think pause and no typo
firing, `simulate_human_typing` types exactly the message's characters in
order, its total sleep lies in
`[L*char_delay.min + 0.3, L*char_delay.max + 0.6]` (the extra `[0.3,0.6]`
being the initial focus pause after clicking the input box), the full text
is typed before the pre-send wait, pointer hover and send click, and the
pre-send wait lies within `[send_wait.min, send_wait.max]`. -/
theorem typing_model_and_bounds
    (cfg : TypingConfig) (d : TypingDraws) (text : List Char)
    (sendWait hoverPause : ℚ)
    (hf₁ : 3/10 ≤ d.focusDelay) (hf₂ : d.focusDelay ≤ 6/10)
    (hlo : ∀ i, cfg.typing_min_delay ≤ d.charDelay i)
    (hhi : ∀ i, d.charDelay i ≤ cfg.typing_max_delay)
    (hthink : ∀ i, ¬ d.thinkRoll i < 5/100)
    (htypo : ∀ i, ¬ d.typoRoll i < 2/100)
    (hw₁ : cfg.send_wait_min ≤ sendWait) (hw₂ : sendWait ≤ cfg.send_wait_max) :
    keysOf (simulate_human_typing d text) = text.map Action.keyPress ∧
    (text.length : ℚ) * cfg.typing_min_delay + 3/10 ≤
      totalSleep (simulate_human_typing d text) ∧
    totalSleep (simulate_human_typing d text) ≤
      (text.length : ℚ) * cfg.typing_max_delay + 6/10 ∧
    send_message_actions d text sendWait hoverPause =
      simulate_human_typing d text ++
        [.sleepFor sendWait, .hoverSend, .sleepFor hoverPause, .clickSend] ∧
    Action.clickSend ∉ simulate_human_typing d text ∧
    cfg.send_wait_min ≤ sendWait ∧ sendWait ≤ cfg.send_wait_max := by
  have hbounds := typingLoop_clean_sleep_bounds cfg d text.length hthink htypo hlo hhi text 0
  have htot : totalSleep (simulate_human_typing d text) =
      d.focusDelay + totalSleep (typingLoop d text.length 0 text) := by
    simp [simulate_human_typing, totalSleep]
  refine ⟨?_, ?_, ?_, rfl, ?_, hw₁, hw₂⟩
  · simp only [simulate_human_typing, keysOf]
    exact typingLoop_clean_keys d text.length hthink htypo text 0
  · rw [htot]; linarith [hbounds.1]
  · rw [htot]; linarith [hbounds.2]
  · simp only [simulate_human_typing, List.mem_cons, not_or]
    exact ⟨by simp, clickSend_not_mem_typingLoop d text.length text 0⟩

/-- Witness for the amended claim C6 at a concrete input. -/
theorem typing_model_and_bounds_witness :
    ((3/10 : ℚ) ≤ fixedDraws.focusDelay ∧ fixedDraws.focusDelay ≤ 6/10 ∧
     (∀ i, defaultTypingConfig.typing_min_delay ≤ fixedDraws.charDelay i) ∧
     (∀ i, fixedDraws.charDelay i ≤ defaultTypingConfig.typing_max_delay) ∧
     (∀ i, ¬ fixedDraws.thinkRoll i < 5/100) ∧
     (∀ i, ¬ fixedDraws.typoRoll i < 2/100) ∧
     defaultTypingConfig.send_wait_min ≤ (2 : ℚ) ∧
     (2 : ℚ) ≤ defaultTypingConfig.send_wait_max) ∧
    (keysOf (simulate_human_typing fixedDraws ['o', 'k']) =
      ['o', 'k'].map Action.keyPress ∧
    (['o', 'k'].length : ℚ) * defaultTypingConfig.typing_min_delay + 3/10 ≤
      totalSleep (simulate_human_typing fixedDraws ['o', 'k']) ∧
    totalSleep (simulate_human_typing fixedDraws ['o', 'k']) ≤
      (['o', 'k'].length : ℚ) * defaultTypingConfig.typing_max_delay + 6/10 ∧
    send_message_actions fixedDraws ['o', 'k'] 2 (1/5) =
      simulate_human_typing fixedDraws ['o', 'k'] ++
        [.sleepFor 2, .hoverSend, .sleepFor (1/5), .clickSend] ∧
    Action.clickSend ∉ simulate_human_typing fixedDraws ['o', 'k'] ∧
    defaultTypingConfig.send_wait_min ≤ (2 : ℚ) ∧
    (2 : ℚ) ≤ defaultTypingConfig.send_wait_max) :=
  ⟨⟨by norm_num [fixedDraws], by norm_num [fixedDraws],
    fun i => by norm_num [fixedDraws, defaultTypingConfig],
    fun i => by norm_num [fixedDraws, defaultTypingConfig],
    fun i => by norm_num [fixedDraws],
    fun i => by norm_num [fixedDraws],
    by norm_num [defaultTypingConfig], by norm_num [defaultTypingConfig]⟩,
   typing_model_and_bounds defaultTypingConfig fixedDraws ['o', 'k'] 2 (1/5)
    (by norm_num [fixedDraws]) (by norm_num [fixedDraws])
    (fun i => by norm_num [fixedDraws, defaultTypingConfig])
    (fun i => by norm_num [fixedDraws, defaultTypingConfig])
    (fun i => by norm_num [fixedDraws])
    (fun i => by norm_num [fixedDraws])
    (by norm_num [defaultTypingConfig]) (by norm_num [defaultTypingConfig])⟩

/-- Claim C7 counterexample: with the default poll interval `[30, 60]` and
the legal draw 60, the idle-cycle gap is 62 seconds — outside
`[poll_interval.min, poll_interval.max]` — because `main_loop` sleeps a
further fixed 2 seconds after reloading the page. -/
theorem idle_gap_exceeds_poll_interval :
    REFRESH_MIN_SECONDS ≤ 60 ∧ 60 ≤ REFRESH_MAX_SECONDS ∧
    main_loop_idle_cycle_gap 60 = 62 ∧
    ¬ main_loop_idle_cycle_gap 60 ≤ REFRESH_MAX_SECONDS := by
  decide

/-- Claim C7 as amended: when no unread conversation is found, consecutive
cycle starts are separated by the uniformly drawn integer wait plus a
fixed 2-second post-reload sleep — a value within
`[poll_interval.min + 2, poll_interval.max + 2]` (exclusive of the page
reload itself). -/
theorem idle_gap_bounds (w : Nat)
    (h₁ : REFRESH_MIN_SECONDS ≤ w) (h₂ : w ≤ REFRESH_MAX_SECONDS) :
    REFRESH_MIN_SECONDS + 2 ≤ main_loop_idle_cycle_gap w ∧
    main_loop_idle_cycle_gap w ≤ REFRESH_MAX_SECONDS + 2 := by
  unfold main_loop_idle_cycle_gap
  omega

/-- Witness for the amended claim C7 at a concrete input. -/
theorem idle_gap_bounds_witness :
    (REFRESH_MIN_SECONDS ≤ 45 ∧ 45 ≤ REFRESH_MAX_SECONDS) ∧
    (REFRESH_MIN_SECONDS + 2 ≤ main_loop_idle_cycle_gap 45 ∧
     main_loop_idle_cycle_gap 45 ≤ REFRESH_MAX_SECONDS + 2) :=
  ⟨⟨by decide, by decide⟩, idle_gap_bounds 45 (by decide) (by decide)⟩

/-- Claim C8 counterexample: the poll sleep of `main_loop` (`main.py` line
882) is a single unsegmented `asyncio.sleep(wait_time)`; with the legal
draw of 60 seconds the stop signal goes unchecked for the full 60 s —
refuting the claim that every sleep longer than one second checks the stop
signal at least once per second. -/
theorem main_loop_sleep_unsegmented :
    REFRESH_MIN_SECONDS ≤ 60 ∧ 60 ≤ REFRESH_MAX_SECONDS ∧
    maxCheckGap (main_loop_poll_sleep_segments 60) = 60 ∧
    ¬ maxCheckGap (main_loop_poll_sleep_segments 60) ≤ 1 := by
  decide

/-- Claim C8 as amended: only the poll-interval wait of `ShopeeBot.run`
is segmented into one-second sleeps with a stop check before each (check
gap at most 1 s); the poll sleep of `main_loop` in `main.py` sleeps the
whole drawn interval in one piece, and the error-backoff sleep of
`ShopeeBot.run` is a single 5-second sleep, so a stop request issued
during those waits takes effect only after they end. -/
theorem stop_check_granularity (w : Nat) :
    maxCheckGap (run_poll_wait_segments w) ≤ 1 ∧
    maxCheckGap (main_loop_poll_sleep_segments w) = w ∧
    maxCheckGap run_error_backoff_segments = 5 := by
  refine ⟨maxCheckGap_replicate_one w, ?_, by decide⟩
  simp [maxCheckGap, main_loop_poll_sleep_segments]

/-- Claim C9: the dedup key is computed from `(conversation_id, message)`
alone — the digest of the content string `cid ++ ":" ++ msg`, with no
timestamp or object-identity input — so marking a pair and then saving the
tracker to disk and reloading it (a process restart) preserves
`is_replied = true` whenever the set is within the 1000-key persistence
cap; independently, any process that marks the same pair recognizes it. -/
theorem dedup_key_stable_across_restart
    (hashFn : String → String) (hashes : List String) (c m : String)
    (enumeration : List String)
    (hperm : List.Perm enumeration (mark_replied hashFn hashes c m))
    (hcap : (mark_replied hashFn hashes c m).length ≤ 1000) :
    is_replied hashFn
      (loadRepliedHashes (savePersistedHashes enumeration)) c m = true ∧
    generate_hash hashFn c m = hashFn (hashContent c m) ∧
    (∀ other : List String,
      is_replied hashFn (mark_replied hashFn other c m) c m = true) := by
  refine ⟨?_, rfl, fun other => is_replied_mark_self hashFn other c m⟩
  have hlen : enumeration.length ≤ 1000 := by
    rw [hperm.length_eq]; exact hcap
  have hsave : savePersistedHashes enumeration = enumeration :=
    lastN_of_length_le 1000 enumeration hlen
  have hmem : generate_hash hashFn c m ∈ mark_replied hashFn hashes c m := by
    have := is_replied_mark_self hashFn hashes c m
    simpa [is_replied] using this
  have hmem' : generate_hash hashFn c m ∈ enumeration := hperm.mem_iff.mpr hmem
  rw [hsave]
  simp [is_replied, loadRepliedHashes, List.mem_dedup, hmem']

/-- Witness for claim C9 at a concrete input. -/
theorem dedup_key_stable_across_restart_witness :
    (List.Perm (mark_replied (fun s => s) [] "1001" "運費多少")
      (mark_replied (fun s => s) [] "1001" "運費多少") ∧
     (mark_replied (fun s => s) [] "1001" "運費多少").length ≤ 1000) ∧
    (is_replied (fun s => s)
      (loadRepliedHashes (savePersistedHashes
        (mark_replied (fun s => s) [] "1001" "運費多少"))) "1001" "運費多少" = true ∧
    generate_hash (fun s => s) "1001" "運費多少" =
      (fun s => s) (hashContent "1001" "運費多少") ∧
    (∀ other : List String,
      is_replied (fun s => s) (mark_replied (fun s => s) other "1001" "運費多少")
        "1001" "運費多少" = true)) :=
  ⟨⟨List.Perm.refl _, by decide⟩,
   dedup_key_stable_across_restart (fun s => s) [] "1001" "運費多少"
    (mark_replied (fun s => s) [] "1001" "運費多少")
    (List.Perm.refl _) (by decide)⟩

/-- Claim C10 counterexample: two distinct observation instants inside the
same wall-clock second (equal `sec`, different sub-second fraction) make
the fallback branch of `get_conversation_id` return the **same** id,
because `strftime('%Y%m%d%H%M%S')` has whole-second resolution — refuting
the claim that two observations in that state always yield different ids
whose dedup keys never match. -/
theorem same_second_same_fallback_id :
    (⟨100, 1/4⟩ : Instant) ≠ (⟨100, 1/2⟩ : Instant) ∧
    get_conversation_id none none ⟨100, 1/4⟩ =
      get_conversation_id none none ⟨100, 1/2⟩ := by
  refine ⟨?_, rfl⟩
  intro hcontra
  rw [Instant.mk.injEq] at hcontra
  norm_num at hcontra

/-- Claim C10 as amended: the fallback id is derived from the current
timestamp at whole-second resolution, so two observations in *different*
seconds yield different ids, and the dedup key contents built from those
ids never match (for any message); observations within the same second
share one id. -/
theorem fallback_id_differs_across_seconds
    (t₁ t₂ : Instant) (m : String) (h : t₁.sec ≠ t₂.sec) :
    get_conversation_id none none t₁ ≠ get_conversation_id none none t₂ ∧
    hashContent (get_conversation_id none none t₁) m ≠
      hashContent (get_conversation_id none none t₂) m := by
  have hid : get_conversation_id none none t₁ ≠ get_conversation_id none none t₂ := by
    intro heq
    simp only [get_conversation_id] at heq
    exact h (fmtTimestamp_inj (string_append_left_inj "conv_" heq))
  exact ⟨hid, fun heq => hid (hashContent_left_inj m heq)⟩

/-- Witness for the amended claim C10 at a concrete input. -/
theorem fallback_id_differs_across_seconds_witness :
    (⟨0, 0⟩ : Instant).sec ≠ (⟨1, 0⟩ : Instant).sec ∧
    (get_conversation_id none none ⟨0, 0⟩ ≠ get_conversation_id none none ⟨1, 0⟩ ∧
     hashContent (get_conversation_id none none ⟨0, 0⟩) "hi" ≠
       hashContent (get_conversation_id none none ⟨1, 0⟩) "hi") :=
  ⟨by decide, fallback_id_differs_across_seconds ⟨0, 0⟩ ⟨1, 0⟩ "hi" (by decide)⟩

end ShopeeBot
